import Mathlib

/-!
Shallow embedding of the Resilient Task Orchestration Engine of the
SimpleClaw repository (src/agents/task_executor.py, src/core/agent_loop.py,
src/core/task_queue.py, src/tools/git_checkpoint.py), together with proofs
of the behavioural properties claimed by its specification.

Python strings are modelled as Lean `String` (a list of unicode code
points, matching Python's code-point semantics of `len`, slicing and
`in`).  Python `str.lower` is modelled character-wise; the accented
upper-case letters that occur in the source's signal strings are mapped
explicitly, all other non-ASCII characters are left unchanged.
-/

set_option maxRecDepth 4000

-- ───────────────────────── string primitives ─────────────────────────

/-- Character-wise model of Python `str.lower` (ASCII plus the accented
letters appearing in the source's keyword lists). -/
def lowerChar (c : Char) : Char :=
  if c = 'Ã' then 'ã'
  else if c = 'Í' then 'í'
  else if c = 'É' then 'é'
  else if c = 'Ó' then 'ó'
  else if c = 'Ç' then 'ç'
  else c.toLower

/-- Model of Python `str.lower`. -/
def pyLower (s : String) : String := ⟨s.data.map lowerChar⟩

/-- `leadsWith needle hay` holds when `needle` occurs at the very start of
`hay` (helper for the substring test). -/
def leadsWith : List Char → List Char → Bool
  | [], _ => true
  | _ :: _, [] => false
  | a :: as, b :: bs => a == b && leadsWith as bs

/-- `containsSub hay needle` models Python's `needle in hay`. -/
def containsSub : List Char → List Char → Bool
  | [], needle => needle.isEmpty
  | c :: rest, needle => leadsWith needle (c :: rest) || containsSub rest needle

/-- String-level substring test (`needle in hay` on Python strings). -/
def strContains (hay needle : String) : Bool := containsSub hay.data needle.data

/-- Python whitespace for `str.strip` (ASCII subset). -/
def pySpace (c : Char) : Bool := c = ' ' || c = '\t' || c = '\n' || c = '\r'

/-- Model of Python `str.strip()`. -/
def pyStrip (s : String) : String :=
  ⟨((s.data.dropWhile pySpace).reverse.dropWhile pySpace).reverse⟩

/-- Model of Python slicing `s[:n]`. -/
def pyTake (n : Nat) (s : String) : String := ⟨s.data.take n⟩

/-- Model of Python `sep.join(xs)`. -/
def pyJoin (sep : String) : List String → String
  | [] => ""
  | [x] => x
  | x :: y :: xs => x ++ sep ++ pyJoin sep (y :: xs)

/-- Model of Python `len(s)` (number of code points). -/
def pyLen (s : String) : Nat := s.data.length

-- ───────────────────────── task state machine ─────────────────────────

/-- `TaskState` enum from src/agents/task_executor.py. -/
inductive TaskState where
  | idle | analyzing | planning | executing | verifying
  | completed | failed | rollingBack | recovering | escalated
  deriving DecidableEq, Repr

/-- The `.value` string of each state. -/
def TaskState.value : TaskState → String
  | .idle => "idle"
  | .analyzing => "analyzing"
  | .planning => "planning"
  | .executing => "executing"
  | .verifying => "verifying"
  | .completed => "completed"
  | .failed => "failed"
  | .rollingBack => "rolling_back"
  | .recovering => "recovering"
  | .escalated => "escalated"

/-- `VALID_TRANSITIONS` table from src/agents/task_executor.py (immutable). -/
def VALID_TRANSITIONS : TaskState → List TaskState
  | .idle => [.analyzing]
  | .analyzing => [.planning, .failed]
  | .planning => [.executing, .failed]
  | .executing => [.verifying, .failed]
  | .verifying => [.completed, .rollingBack]
  | .rollingBack => [.recovering, .failed]
  | .recovering => [.planning, .escalated]
  | .failed => [.recovering, .escalated]
  | .escalated => [.idle]
  | .completed => [.idle]

/-- `StepResult` record (timestamp omitted; errors carried as their text). -/
structure StepResult where
  step_name : String
  success : Bool
  output : String := ""
  error : Option String := none
  fallback_used : Option String := none
  deriving DecidableEq, Repr

/-- `ErrorSeverity` enum from src/agents/task_executor.py. -/
inductive ErrorSeverity where
  | transient | recoverable | severe | critical
  deriving DecidableEq, Repr

/-- `TaskContext`: mutable context of a running task (the fields the
orchestration logic reads or writes; `plan` and `work_dir` are never
consulted by the modelled control flow). -/
structure TaskContext where
  task_id : String
  user_id : String
  chat_id : Int := 0
  state : TaskState := .idle
  steps_completed : List StepResult := []
  recovery_attempts : Nat := 0
  max_recoveries : Nat := 3
  last_error : Option String := none
  last_severity : Option ErrorSeverity := none
  final_output : String := ""
  deriving Repr

/-- The message of the `InvalidTransition` exception. -/
def invalidTransitionMsg (fromState toState : TaskState) : String :=
  "Transição ilegal: " ++ fromState.value ++ " → " ++ toState.value ++ ". " ++
    "Válidas: " ++ pyJoin ", " ((VALID_TRANSITIONS fromState).map TaskState.value)

/-- `TaskContext.transition`: validate and execute a state transition;
`Except.error` models the raised `InvalidTransition`. -/
def TaskContext.transition (ctx : TaskContext) (to_state : TaskState) :
    Except String TaskContext :=
  if to_state ∈ VALID_TRANSITIONS ctx.state then
    .ok { ctx with state := to_state }
  else
    .error (invalidTransitionMsg ctx.state to_state)

/-- `TaskContext.add_step_result`. -/
def TaskContext.addStepResult (ctx : TaskContext) (r : StepResult) : TaskContext :=
  { ctx with steps_completed := ctx.steps_completed ++ [r] }

/-- One rendered line of the progress summary. -/
def stepLine (s : StepResult) : String :=
  if s.success then
    "✓ " ++ s.step_name ++
      (match s.fallback_used with
       | some fb => " (alternativa: " ++ fb ++ ")"
       | none => "")
  else
    "✗ " ++ s.step_name

/-- `TaskContext.get_progress_summary`. -/
def TaskContext.getProgressSummary (ctx : TaskContext) : String :=
  let completed := ctx.steps_completed.filter (fun s => s.success)
  let failed := ctx.steps_completed.filter (fun s => !s.success)
  let lines := completed.map stepLine ++ failed.map stepLine
  if lines.isEmpty then "Nenhuma etapa concluída ainda." else pyJoin "\n" lines

-- ───────────────────────── error classification ─────────────────────────

def transient_signals : List String :=
  ["timeout", "timed out", "rate limit", "429", "503",
   "connection reset", "broken pipe", "temporary"]

def recoverable_signals : List String :=
  ["address already in use", "port", "already exists",
   "permission denied", "no such file", "not found",
   "missing", "dependency", "module", "import",
   "could not connect", "connection refused"]

def severe_signals : List String :=
  ["corrupt", "integrity", "foreign key", "constraint",
   "deadlock", "serialization", "out of memory", "disk full"]

/-- `any(s in msg for s in signals)`. -/
def anySignal (msg : String) (signals : List String) : Bool :=
  signals.any (fun s => strContains msg s)

/-- `classify_error` from src/agents/task_executor.py: classify an error
(taken here as its message string, i.e. `str(error)`) by severity. -/
def classify_error (error : String) : ErrorSeverity :=
  let msg := pyLower error
  if anySignal msg transient_signals then .transient
  else if anySignal msg recoverable_signals then .recoverable
  else if anySignal msg severe_signals then .severe
  else .recoverable

-- ───────────────────────── git checkpoint store ─────────────────────────

/-- A file tree: file name to contents (model of the working directory). -/
def FileTree := List (String × String)
deriving instance DecidableEq for FileTree

/-- One git commit made by the checkpoint tool.  Commits never carry file
contents beyond the snapshotted tree; a commit's identifier is modelled as
its position in history (opaque, strictly increasing). -/
structure GitCommit where
  message : String
  tag : Option String := none
  tree : FileTree := []
  deriving DecidableEq

/-- Repository state of `GitCheckpoint`: the committed history plus the
current working tree (`git add -A` is modelled as staging the whole
working tree at commit time). -/
structure GitRepo where
  commits : List GitCommit
  worktree : FileTree

/-- Tree at `HEAD`. -/
def GitRepo.headTree (repo : GitRepo) : FileTree :=
  match repo.commits.getLast? with
  | some c => c.tree
  | none => []

/-- `GitCheckpoint.init_repo`: create the repo, write a `.gitignore`, make
the initial commit. -/
def gitInit : GitRepo :=
  let tree : FileTree := [(".gitignore", "__pycache__/\n*.pyc\n.env\n*.log\n")]
  { commits := [{ message := "Initial: task started", tree := tree }]
    worktree := tree }

/-- `GitCheckpoint.checkpoint`: stage everything, commit (an empty marker
commit when nothing changed), optionally tag, and return the new head's
identifier (`git rev-parse HEAD`, modelled as the commit's index). -/
def GitRepo.checkpoint (repo : GitRepo) (message : String)
    (tag : Option String := none) : GitRepo × Option Nat :=
  -- `git add -A` then `git status --porcelain`: clean iff worktree = HEAD tree
  let clean := repo.worktree = repo.headTree
  let c : GitCommit := { message := message, tag := tag, tree := repo.worktree }
  if clean then
    -- `git commit --allow-empty` marks the step even with no changes
    let repo' : GitRepo := { repo with commits := repo.commits ++ [c] }
    (repo', some repo.commits.length)
  else
    let repo' : GitRepo := { repo with commits := repo.commits ++ [c] }
    (repo', some repo.commits.length)

/-- `GitCheckpoint.rollback`: `git reset --hard HEAD~steps`; fails (and
leaves the repo untouched) when `HEAD~steps` does not exist. -/
def GitRepo.rollback (repo : GitRepo) (steps : Nat) : GitRepo × Bool :=
  if steps < repo.commits.length then
    let commits' := repo.commits.take (repo.commits.length - steps)
    let repo' : GitRepo :=
      { commits := commits'
        worktree := match commits'.getLast? with
                    | some c => c.tree
                    | none => [] }
    (repo', true)
  else
    (repo, false)

-- ───────────────────────── task executor ─────────────────────────

/-- `TaskExecutor._escalate`: user-safe escalation message with progress
summary and truncated error, never a stack trace. -/
def escalate (ctx : TaskContext) (error : Option String) : String :=
  let progress := ctx.getProgressSummary
  let error_msg := match error with
                   | some e => pyTake 200 e
                   | none => "Erro desconhecido"
  let lines :=
    ["⚠️ Preciso da sua ajuda para continuar.\n",
     "*Problema:* " ++ error_msg ++ "\n"] ++
    (if progress ≠ "" then ["*Progresso até agora:*\n" ++ progress ++ "\n"] else []) ++
    ["*Sugestões:*\n• Reformule o pedido com mais detalhes\n• Divida em partes menores\n• Verifique se os serviços necessários estão rodando (/health)"]
  pyJoin "\n" lines

/-- Outcome of `TaskExecutor._verify_output`. -/
structure Verification where
  passed : Bool
  reason : String := ""
  deriving DecidableEq, Repr

def error_indicators : List String :=
  ["error:", "traceback", "exception", "falhou",
   "não foi possível", "couldn't", "failed to"]

/-- Number of error indicators occurring in the lower-cased result. -/
def errorIndicatorCount (result : String) : Nat :=
  (error_indicators.filter (fun s => strContains (pyLower result) s)).length

/-- `TaskExecutor._verify_output`: quality checks on the final output. -/
def verifyOutput (result : String) : Verification :=
  if pyStrip result = "" then
    { passed := false, reason := "Resultado vazio" }
  else if errorIndicatorCount result ≥ 3 then
    { passed := false, reason := "Resultado contém múltiplos erros" }
  else if pyLen (pyStrip result) < 20 then
    { passed := false, reason := "Resultado muito curto para ser útil" }
  else
    { passed := true }

/-- The enriched task description used from the second attempt on inside
`_execute_with_recovery`. -/
def retryDescription (task_description last_error : String) : String :=
  task_description ++ "\n\n" ++
  "ATENÇÃO: Tentativa anterior falhou com erro: " ++ pyTake 200 last_error ++ "\n" ++
  "Tente uma abordagem alternativa para resolver o problema."

/-- The delegate (`team.run`) is the external collaborator executing one
task description; it returns text or raises (modelled by `Except`). -/
def Delegate := String → Except String String

/-- Loop body of `TaskExecutor._execute_with_recovery`, recursing on the
number of remaining attempts (`attempt` is the 1-based attempt counter,
`maxR` the configured `ctx.max_recoveries`). -/
def execRecoveryLoop (run : Delegate) (task_description : String) (maxR : Nat) :
    Nat → Nat → Option String → TaskContext → GitRepo →
    TaskContext × GitRepo × String
  | 0, _, lastError, ctx, git =>
    -- all attempts exhausted
    (ctx, git, escalate ctx lastError)
  | remaining + 1, attempt, lastError, ctx, git =>
    let desc :=
      if attempt > 1 then
        retryDescription task_description (lastError.getD "None")
      else task_description
    match run desc with
    | .ok result =>
      let git' := (git.checkpoint ("Execução bem-sucedida (tentativa " ++ toString attempt ++ ")")).1
      let ctx' := ctx.addStepResult
        { step_name := "Execução (tentativa " ++ toString attempt ++ ")"
          success := true
          output := pyTake 200 result
          fallback_used := if attempt > 1 then some "plano alternativo" else none }
      (ctx', git', result)
    | .error e =>
      let severity := classify_error e
      let ctx' := { ctx with last_error := some e, last_severity := some severity }
      let ctx' := ctx'.addStepResult
        { step_name := "Execução (tentativa " ++ toString attempt ++ ")"
          success := false
          error := some e }
      if severity = .critical then
        -- `break`: fall through to escalation without further retries
        (ctx', git, escalate ctx' (some e))
      else
        let git' := if severity = .severe then (git.rollback 1).1 else git
        execRecoveryLoop run task_description maxR remaining (attempt + 1) (some e) ctx' git'

/-- `TaskExecutor._execute_with_recovery`. -/
def executeWithRecovery (run : Delegate) (ctx : TaskContext) (task_description : String)
    (git : GitRepo) : TaskContext × GitRepo × String :=
  execRecoveryLoop run task_description ctx.max_recoveries ctx.max_recoveries 1 none ctx git

/-- The planning collaborator (`router.generate_task_spec`); the produced
spec is consumed only through its `raw_spec` text, so it is modelled as the
task-description string it yields. -/
def Router := String → String

/-- The recovery-context request built by `_recover_and_replan`. -/
def enrichedRequest (original_request reason : String) (attempts maxR : Nat) : String :=
  original_request ++ "\n\n" ++
  "CONTEXTO DE RECUPERAÇÃO: A abordagem anterior falhou. " ++
  "Motivo: " ++ reason ++ ". " ++
  "Tentativas anteriores: " ++ toString attempts ++ "/" ++ toString maxR ++ ". " ++
  "Use uma abordagem diferente."

/-- Body of `_recover_and_replan` after the successful transition to
`PLANNING`, taking the already-enriched request (inside the `try`, every
raised `InvalidTransition` is caught by `except Exception` and turned into
an escalation). -/
def replanFrom (router : Router) (run : Delegate) (ctx : TaskContext) (git : GitRepo)
    (enriched : String) : TaskContext × GitRepo × Except String String :=
  let spec := router enriched
  let git := (git.checkpoint ("Replano após recuperação #" ++ toString ctx.recovery_attempts)).1
  match ctx.transition .executing with
  | .error e => (ctx, git, .ok (escalate ctx (some e)))
  | .ok ctx =>
    let r := executeWithRecovery run ctx spec git
    let ctx := r.1
    let git := r.2.1
    let result := r.2.2
    match ctx.transition .verifying with
    | .error e => (ctx, git, .ok (escalate ctx (some e)))
    | .ok ctx =>
      let verification := verifyOutput result
      if verification.passed then
        let git := (git.checkpoint "Recuperação bem-sucedida" (some ("recovered-" ++ ctx.task_id))).1
        match ctx.transition .completed with
        | .error e => (ctx, git, .ok (escalate ctx (some e)))
        | .ok ctx => (ctx, git, .ok result)
      else
        match ctx.transition .rollingBack with
        | .error e => (ctx, git, .ok (escalate ctx (some e)))
        | .ok ctx =>
          let git := (git.rollback 1).1
          match ctx.transition .recovering with
          | .error e => (ctx, git, .ok (escalate ctx (some e)))
          | .ok ctx => (ctx, git, .ok (escalate ctx (some verification.reason)))

/-- `TaskExecutor._recover_and_replan`.  The result text is wrapped in
`Except`: `.error` is an `InvalidTransition` raised by the pre-`try`
escalation transition, which propagates to `execute`'s own handler. -/
def recoverAndReplan (router : Router) (run : Delegate) (ctx : TaskContext)
    (git : GitRepo) (original_request reason : String) :
    TaskContext × GitRepo × Except String String :=
  let ctx := { ctx with recovery_attempts := ctx.recovery_attempts + 1 }
  if ctx.recovery_attempts > ctx.max_recoveries then
    match ctx.transition .escalated with
    | .error e => (ctx, git, .error e)
    | .ok ctx => (ctx, git, .ok (escalate ctx ctx.last_error))
  else
    match ctx.transition .planning with
    | .error e => (ctx, git, .ok (escalate ctx (some e)))
    | .ok ctx =>
      replanFrom router run ctx git
        (enrichedRequest original_request reason ctx.recovery_attempts ctx.max_recoveries)

/-- The message returned by `execute` when an `InvalidTransition` escapes
to its top-level handler. -/
def stateErrorMsg (e : String) : String := "⚠️ Erro interno de estado: " ++ e

/-- Verification phase of `TaskExecutor.execute` (phase 4 onwards), taking
the context, repo and result produced by the execution phase. -/
def executeVerifyPhase (router : Router) (run : Delegate) (ctx : TaskContext)
    (git : GitRepo) (request result : String) : TaskContext × GitRepo × String :=
  match ctx.transition .verifying with
  | .error e => (ctx, git, stateErrorMsg e)
  | .ok ctx =>
    let verification := verifyOutput result
    if verification.passed then
      let git := (git.checkpoint "Verificação aprovada - tarefa concluída"
        (some ("done-" ++ ctx.task_id))).1
      match ctx.transition .completed with
      | .error e => (ctx, git, stateErrorMsg e)
      | .ok ctx => ({ ctx with final_output := result }, git, result)
    else
      match ctx.transition .rollingBack with
      | .error e => (ctx, git, stateErrorMsg e)
      | .ok ctx =>
        let git := (git.rollback 1).1
        match ctx.transition .recovering with
        | .error e => (ctx, git, stateErrorMsg e)
        | .ok ctx =>
          let r := recoverAndReplan router run ctx git request verification.reason
          match r.2.2 with
          | .ok text => (r.1, r.2.1, text)
          | .error e => (r.1, r.2.1, stateErrorMsg e)

/-- `TaskExecutor.execute`: the full resilient loop for one request.
Returns the final context, repository and the text returned to the user. -/
def executeModel (router : Router) (run : Delegate) (request user_id task_id : String)
    (chat_id : Int) : TaskContext × GitRepo × String :=
  let ctx : TaskContext := { task_id := task_id, user_id := user_id, chat_id := chat_id }
  let git := gitInit
  match ctx.transition .analyzing with
  | .error e => (ctx, git, stateErrorMsg e)
  | .ok ctx =>
    let spec := router request
    let git := (git.checkpoint "Análise concluída - spec gerada").1
    let ctx := ctx.addStepResult
      { step_name := "Análise de requisitos", success := true, output := "Spec gerada" }
    match ctx.transition .planning with
    | .error e => (ctx, git, stateErrorMsg e)
    | .ok ctx =>
      let git := (git.checkpoint "Plano de execução definido").1
      let ctx := ctx.addStepResult { step_name := "Planejamento", success := true }
      match ctx.transition .executing with
      | .error e => (ctx, git, stateErrorMsg e)
      | .ok ctx =>
        let r := executeWithRecovery run ctx spec git
        executeVerifyPhase router run r.1 r.2.1 request r.2.2

/-- The context as it stands when `execute` enters its execution phase
(after the Analyzing and Planning phases). -/
def preExecContext (task_id user_id : String) (chat_id : Int) : TaskContext :=
  { task_id := task_id, user_id := user_id, chat_id := chat_id
    state := .executing
    steps_completed :=
      [{ step_name := "Análise de requisitos", success := true, output := "Spec gerada" },
       { step_name := "Planejamento", success := true }] }

/-- The repository as it stands when `execute` enters its execution phase. -/
def preExecGit : GitRepo :=
  ((gitInit.checkpoint "Análise concluída - spec gerada").1.checkpoint
    "Plano de execução definido").1

/-- Context, repository and result text delivered by the execution phase of
`execute` (phases 1-3). -/
def execPhaseResult (router : Router) (run : Delegate) (request user_id task_id : String)
    (chat_id : Int) : TaskContext × GitRepo × String :=
  executeWithRecovery run (preExecContext task_id user_id chat_id) (router request) preExecGit

-- ───────────────────────── persistent task queue ─────────────────────────

namespace Queue

/-- Simplified JSON-object rendering of an event payload (the exact wire
text of `json.dumps` is irrelevant to every claim about the queue). -/
def jsonDumps (kvs : List (String × String)) : String :=
  "\x7b" ++ pyJoin ", " (kvs.map (fun kv => "\"" ++ kv.1 ++ "\": \"" ++ kv.2 ++ "\"")) ++ "\x7d"

/-- `TaskEvent` from src/core/task_queue.py (wall-clock timestamp is an
environmental input, defaulted to the empty string). -/
structure TaskEvent where
  event_type : String
  data : List (String × String) := []
  worker_id : String := ""
  task_id : String := ""
  timestamp : String := ""

/-- `TaskEvent.to_redis`. -/
def TaskEvent.toRedis (e : TaskEvent) : List (String × String) :=
  [("type", e.event_type), ("task_id", e.task_id), ("worker", e.worker_id),
   ("data", jsonDumps e.data), ("timestamp", e.timestamp)]

/-- The Redis connection as the queue uses it: `xadd` appends fields to a
stream, `xreadgroup` claims pending messages for a consumer; either call
may fail (network, server down), modelled by `Except.error`. -/
structure RedisConn where
  xadd : String → List (String × String) → Except String String
  xreadgroup : String → String → Except String (List (String × List (String × String)))

def PENDING_STREAM : String := "tasks:pending"
def GROUP_NAME : String := "simpleclaw-workers"

/-- `PersistentTaskQueue._log_event`: persist an event to the per-task
stream; on failure, log and swallow (the call never raises). -/
def logEvent (r : RedisConn) (task_id : String) (e : TaskEvent) : Except String Unit :=
  match r.xadd ("task:" ++ task_id ++ ":events") e.toRedis with
  | .ok _ => .ok ()
  | .error _ => .ok ()   -- logged and swallowed

/-- The pending-stream entry written by `enqueue`. -/
def enqueueFields (task_id user_id capability payloadJson original_request enqueued_at :
    String) : List (String × String) :=
  [("task_id", task_id), ("user_id", user_id), ("capability", capability),
   ("payload", payloadJson), ("original_request", pyTake 500 original_request),
   ("enqueued_at", enqueued_at)]

/-- `PersistentTaskQueue.enqueue`: persist the task before any processing;
the `task_id` (a uuid) and timestamp are environmental inputs.  A failing
`xadd` on the pending stream is NOT caught and propagates to the caller. -/
def enqueue (r : RedisConn) (task_id user_id capability payloadJson original_request
    enqueued_at : String) : Except String String :=
  match r.xadd PENDING_STREAM
      (enqueueFields task_id user_id capability payloadJson original_request enqueued_at) with
  | .error e => .error e
  | .ok _ =>
    match logEvent r task_id
        { event_type := "enqueued", task_id := task_id
          data := [("user_id", user_id), ("capability", capability),
                   ("payload", payloadJson),
                   ("original_request", pyTake 200 original_request)] } with
    | .error e => .error e
    | .ok _ => .ok task_id

/-- The task record returned by `claim_next`. -/
structure TaskData where
  message_id : String
  task_id : String
  user_id : String
  capability : String
  payload : String
  original_request : String
  deriving DecidableEq, Repr

/-- `PersistentTaskQueue.claim_next`: atomically claim the next pending
task.  The whole body runs inside `try/except Exception`: any failure
(including a failing `xreadgroup` or missing mandatory fields) is logged
and turned into `None`, never re-raised. -/
def claimNext (r : RedisConn) (worker_id : String) : Except String (Option TaskData) :=
  match r.xreadgroup GROUP_NAME worker_id with
  | .error _ => .ok none       -- caught: logged, return None
  | .ok [] => .ok none
  | .ok ((message_id, fields) :: _) =>
    match fields.lookup "task_id", fields.lookup "user_id", fields.lookup "capability" with
    | some tid, some uid, some cap =>
      let td : TaskData :=
        { message_id := message_id, task_id := tid, user_id := uid, capability := cap
          payload := (fields.lookup "payload").getD "\x7b\x7d"
          original_request := (fields.lookup "original_request").getD "" }
      match logEvent r tid { event_type := "claimed", task_id := tid, worker_id := worker_id } with
      | .ok _ => .ok (some td)
      | .error _ => .ok none   -- unreachable: logEvent never fails
    | _, _, _ => .ok none      -- KeyError caught: logged, return None

/-- `PersistentTaskQueue.checkpoint`. -/
def checkpointEvent (r : RedisConn) (worker_id task_id step : String)
    (data : List (String × String)) : Except String Unit :=
  logEvent r task_id
    { event_type := "checkpoint", task_id := task_id, worker_id := worker_id
      data := ("step", step) :: data }

/-- `PersistentTaskQueue.mark_started`. -/
def markStarted (r : RedisConn) (worker_id task_id : String) : Except String Unit :=
  logEvent r task_id { event_type := "started", task_id := task_id, worker_id := worker_id }

/-- `PersistentTaskQueue.mark_completed`. -/
def markCompleted (r : RedisConn) (worker_id task_id result : String) : Except String Unit :=
  logEvent r task_id
    { event_type := "completed", task_id := task_id, worker_id := worker_id
      data := [("result", pyTake 500 result)] }

/-- `PersistentTaskQueue.mark_failed`. -/
def markFailed (r : RedisConn) (worker_id task_id error : String) : Except String Unit :=
  logEvent r task_id
    { event_type := "failed", task_id := task_id, worker_id := worker_id
      data := [("error", pyTake 500 error)] }

/-- `PersistentTaskQueue.mark_recovered`. -/
def markRecovered (r : RedisConn) (worker_id task_id : String) : Except String Unit :=
  logEvent r task_id { event_type := "recovered", task_id := task_id, worker_id := worker_id }

/-- A connection on which every Redis operation fails. -/
def failConn : RedisConn :=
  { xadd := fun _ _ => .error "connection lost"
    xreadgroup := fun _ _ => .error "connection lost" }

end Queue

-- ───────────────────────── agent loop ─────────────────────────

namespace Loop

/-- One requested tool call, as parsed by the LLM client
(`{id, name, arguments}`). -/
structure ToolCall where
  id : String
  name : String
  arguments : List (String × String) := []
  deriving DecidableEq, Repr

/-- A chat message (`{role, content, tool_calls?, tool_call_id?, name?}`). -/
structure Msg where
  role : String
  content : String := ""
  tool_call_id : Option String := none
  name : Option String := none
  tool_calls : List ToolCall := []
  deriving DecidableEq, Repr

/-- `LLMResponse` from src/core/llm_client.py (usage/raw omitted). -/
structure LLMResponse where
  content : String := ""
  tool_calls : List ToolCall := []
  deriving DecidableEq, Repr

/-- `LLMResponse.is_final`: no tool calls requested. -/
def LLMResponse.isFinal (r : LLMResponse) : Bool := r.tool_calls.isEmpty

/-- Outcome of invoking a registered tool function: normal return,
`TypeError` on bad arguments, or any other exception. -/
inductive ToolOutcome where
  | ok (result : String)
  | typeError (e : String)
  | exn (e : String)

/-- `ToolRegistry` from src/core/tool_registry.py: named tool functions. -/
structure ToolRegistryM where
  tools : List (String × (List (String × String) → ToolOutcome))

/-- `ToolRegistry.get_tool_names`. -/
def ToolRegistryM.getToolNames (t : ToolRegistryM) : List String := t.tools.map (·.1)

/-- `ToolRegistry.has_tool`. -/
def ToolRegistryM.hasTool (t : ToolRegistryM) (name : String) : Bool :=
  (t.tools.lookup name).isSome

/-- `ToolRegistry.execute`: run a tool, converting every failure into an
error string for the LLM context. -/
def ToolRegistryM.execute (t : ToolRegistryM) (name : String)
    (arguments : List (String × String)) : String :=
  match t.tools.lookup name with
  | none => "Erro: Tool '" ++ name ++ "' não existe. Disponíveis: " ++
      pyJoin ", " t.getToolNames
  | some f =>
    match f arguments with
    | .ok result => result
    | .typeError e => "Erro: Parâmetros inválidos para '" ++ name ++ "': " ++ e
    | .exn e => "Erro ao executar '" ++ name ++ "': " ++ e

/-- Result of `CapabilityRegistry.validate_tool_call` (the fields
`_handle_unknown_tool` reads). -/
structure ValidationResult where
  reason : String
  suggestion : String

/-- The sanity layer's `CapabilityRegistry` as consumed by the loop. -/
structure CapRegM where
  validate : String → ValidationResult
  availableToolNames : List String

/-- The "tool does not exist" core of the corrective message. -/
def unknownToolCore (tool_name : String) : String :=
  "Tool '" ++ tool_name ++ "' não existe"

/-- `AgentLoop._handle_unknown_tool`: corrective message for a
hallucinated tool name.  Constructing the capability registry may itself
fail (`Except.error`), in which case the fallback lists the loop's own
registered tools. -/
def handleUnknownTool (capReg : Except String CapRegM) (tools : ToolRegistryM)
    (tool_name : String) : String :=
  match capReg with
  | .ok registry =>
    let validation := registry.validate tool_name
    let reason := if validation.suggestion ≠ "" then validation.suggestion
                  else validation.reason
    let available := pyJoin ", " registry.availableToolNames
    "ERRO: " ++ unknownToolCore tool_name ++ ". " ++ reason ++
      " Tools disponíveis: " ++ available ++ ". Use apenas tools da lista."
  | .error _ =>
    let available := pyJoin ", " tools.getToolNames
    "ERRO: " ++ unknownToolCore tool_name ++ ". Tools disponíveis: " ++
      available ++ ". Use apenas tools da lista."

/-- `MAX_TOOL_ROUNDS` from src/core/agent_loop.py. -/
def MAX_TOOL_ROUNDS : Nat := 10

/-- The model backend (`LLMClient.chat`): full message list to response;
`Except.error` models a raised `LLMError`. -/
def LLM := List Msg → Except String LLMResponse

/-- The tool-result message appended for one executed tool call. -/
def toolResultMsg (tc : ToolCall) (result : String) : Msg :=
  { role := "tool", tool_call_id := some tc.id, name := some tc.name, content := result }

/-- The assistant message recording the requested tool calls. -/
def assistantToolMsg (resp : LLMResponse) : Msg :=
  { role := "assistant", content := resp.content, tool_calls := resp.tool_calls }

/-- Tool dispatch inside the loop: validate against the registry BEFORE
execution; an unknown name becomes a corrective message, never an error. -/
def dispatchToolCall (tools : ToolRegistryM) (capReg : Except String CapRegM)
    (tc : ToolCall) : String :=
  if !(tools.hasTool tc.name) then handleUnknownTool capReg tools tc.name
  else tools.execute tc.name tc.arguments

/-- Execute the round's tool calls in order, appending each result to the
in-context message list and to the persisted session transcript. -/
def processToolCalls (tools : ToolRegistryM) (capReg : Except String CapRegM) :
    List ToolCall → List Msg → List Msg → List Msg × List Msg
  | [], messages, session => (messages, session)
  | tc :: rest, messages, session =>
    let result := dispatchToolCall tools capReg tc
    let m := toolResultMsg tc result
    processToolCalls tools capReg rest (messages ++ [m]) (session ++ [m])

/-- The bounded "limit reached" message returned after `max_rounds`. -/
def timeoutMsg : String :=
  "⚠️ Atingi o limite de execuções para esta tarefa. " ++
  "Resultados parciais podem estar disponíveis. " ++
  "Reformule o pedido de forma mais específica se necessário."

/-- The agent loop proper (step 2 of `AgentLoop.run`), recursing on the
remaining rounds; returns the appended session transcript and the final
text.  `sanity` is the `_sanity_check` collaborator applied to final
responses. -/
def runLoop (llm : LLM) (tools : ToolRegistryM) (capReg : Except String CapRegM)
    (sanity : String → String) :
    Nat → List Msg → List Msg → List Msg × String
  | 0, _, session =>
    -- safety: max rounds exceeded
    (session ++ [{ role := "assistant", content := timeoutMsg }], timeoutMsg)
  | fuel + 1, messages, session =>
    match llm messages with
    | .error e =>
      let error_msg := "Erro de comunicação com o modelo: " ++ pyTake 200 e
      (session ++ [{ role := "assistant", content := error_msg }], error_msg)
    | .ok response =>
      if response.tool_calls.isEmpty then
        let final_text := if response.content = "" then "Tarefa concluída."
                          else response.content
        let final_text := sanity final_text
        (session ++ [{ role := "assistant", content := final_text }], final_text)
      else
        let amsg := assistantToolMsg response
        let (messages', session') := processToolCalls tools capReg response.tool_calls
          (messages ++ [amsg]) (session ++ [amsg])
        runLoop llm tools capReg sanity fuel messages' session'

/-- `AgentLoop.run`: one full conversational turn. -/
def runModel (llm : LLM) (tools : ToolRegistryM) (capReg : Except String CapRegM)
    (sanity : String → String) (system_prompt user_message : String)
    (history : List Msg) (max_rounds : Nat := MAX_TOOL_ROUNDS) : List Msg × String :=
  let userMsg : Msg := { role := "user", content := user_message }
  let messages :=
    (if system_prompt ≠ "" then [{ role := "system", content := system_prompt : Msg }] else [])
      ++ history ++ [userMsg]
  runLoop llm tools capReg sanity max_rounds messages [userMsg]

/-- An assistant message that requests tool calls (marks one tool round in
the transcript). -/
def isToolRoundMsg (m : Msg) : Bool := m.role == "assistant" && !m.tool_calls.isEmpty

/-- Number of tool-execution rounds recorded in a transcript. -/
def countToolRounds (msgs : List Msg) : Nat := (msgs.filter isToolRoundMsg).length

/-- A one-tool registry used to exercise the loop on concrete inputs. -/
def demoRegistry : ToolRegistryM :=
  { tools := [("search_web", fun _ => ToolOutcome.ok "resultado da busca na web")] }

/-- A backend that requests a tool call on every response. -/
def alwaysToolLLM : LLM :=
  fun _ => .ok { content := "", tool_calls := [{ id := "call-1", name := "search_web" }] }

/-- A backend that first requests an unregistered tool, then (once a tool
result is visible in context) answers with final text. -/
def unknownThenFinalLLM : LLM :=
  fun msgs =>
    if msgs.any (fun m => m.role == "tool") then
      .ok { content := "Não posso fazer café. Posso pesquisar na web." }
    else
      .ok { content := "", tool_calls := [{ id := "call-1", name := "make_coffee" }] }

end Loop

-- ───────────────────────── helper lemmas ─────────────────────────

-- basic substring lemmas

theorem leadsWith_self_append (l rest : List Char) :
    leadsWith l (l ++ rest) = true := by
  induction l with
  | nil => rfl
  | cons a as ih => simp [leadsWith, ih]

theorem containsSub_cons_of (c : Char) (hay needle : List Char)
    (h : containsSub hay needle = true) :
    containsSub (c :: hay) needle = true := by
  simp [containsSub, h]

theorem containsSub_here (needle post : List Char) :
    containsSub (needle ++ post) needle = true := by
  cases hn : needle with
  | nil =>
    cases post with
    | nil => rfl
    | cons c t => simp [containsSub, leadsWith]
  | cons c t =>
    simp only [containsSub, List.cons_append]
    have : leadsWith (c :: t) ((c :: t) ++ post) = true :=
      leadsWith_self_append (c :: t) post
    simp only [List.cons_append] at this
    simp [this]

theorem containsSub_infix (pre needle post : List Char) :
    containsSub (pre ++ needle ++ post) needle = true := by
  induction pre with
  | nil => simpa using containsSub_here needle post
  | cons c t ih => exact containsSub_cons_of c _ _ ih

theorem strData_append (a b : String) : (a ++ b).data = a.data ++ b.data := by
  cases a; cases b; rfl

theorem strContains_infix (pre needle post : String) :
    strContains (pre ++ needle ++ post) needle = true := by
  simp only [strContains, strData_append]
  exact containsSub_infix pre.data needle.data post.data


theorem classify_error_ne_critical (e : String) : classify_error e ≠ .critical := by
  simp only [classify_error]
  split
  · simp
  · split
    · simp
    · split <;> simp

theorem logEvent_ok (r : Queue.RedisConn) (tid : String) (e : Queue.TaskEvent) :
    Queue.logEvent r tid e = .ok () := by
  unfold Queue.logEvent
  cases r.xadd ("task:" ++ tid ++ ":events") e.toRedis <;> rfl

-- ───────────────────────── claims ─────────────────────────

/-- C1: `transition(context, target)` raises the invalid-transition error
(modelled as `Except.error`, returning no updated context, so the caller's
state is unchanged) whenever `target` is not in the fixed allowed-successor
set of `context.state`; whenever it is in that set, the transition succeeds
and sets the state to `target`; and no state's successor set contains
itself, so a successful transition is never a silent no-op. -/
theorem transition_spec_c1 (ctx : TaskContext) (t : TaskState) :
    (t ∈ VALID_TRANSITIONS ctx.state → ctx.transition t = .ok { ctx with state := t }) ∧
    (t ∉ VALID_TRANSITIONS ctx.state →
      ctx.transition t = .error (invalidTransitionMsg ctx.state t)) ∧
    (∀ s : TaskState, s ∉ VALID_TRANSITIONS s) := by
  refine ⟨fun h => ?_, fun h => ?_, ?_⟩
  · simp [TaskContext.transition, h]
  · simp [TaskContext.transition, h]
  · intro s; cases s <;> decide

/-- Witness for C1 at a concrete context: from Idle, Analyzing is accepted
and Completed is rejected with the invalid-transition error. -/
theorem transition_spec_c1_witness :
    TaskContext.transition { task_id := "t1", user_id := "u1" } .analyzing =
      .ok { task_id := "t1", user_id := "u1", state := .analyzing } ∧
    TaskContext.transition { task_id := "t1", user_id := "u1" } .completed =
      .error (invalidTransitionMsg .idle .completed) :=
  ⟨(transition_spec_c1 _ _).1 (by decide), (transition_spec_c1 _ _).2.1 (by decide)⟩

/-- C2: `classify_error` is a total, pure, deterministic function of the
error text; it checks the transient keyword class first, then recoverable,
then severe, returning on the first match, and defaults to Recoverable;
"timeout" is Transient, "permission denied" Recoverable, "deadlock" Severe,
an unmatched message Recoverable, and the priority order is pinned by
messages matching two classes at once. -/
theorem classify_error_spec_c2 :
    (∀ m, anySignal (pyLower m) transient_signals = true →
       classify_error m = .transient) ∧
    (∀ m, anySignal (pyLower m) transient_signals = false →
       anySignal (pyLower m) recoverable_signals = true →
       classify_error m = .recoverable) ∧
    (∀ m, anySignal (pyLower m) transient_signals = false →
       anySignal (pyLower m) recoverable_signals = false →
       anySignal (pyLower m) severe_signals = true →
       classify_error m = .severe) ∧
    (∀ m, anySignal (pyLower m) transient_signals = false →
       anySignal (pyLower m) recoverable_signals = false →
       anySignal (pyLower m) severe_signals = false →
       classify_error m = .recoverable) ∧
    (∀ m, classify_error m = classify_error m) ∧
    classify_error "timeout" = .transient ∧
    classify_error "permission denied" = .recoverable ∧
    classify_error "deadlock" = .severe ∧
    classify_error "sem sinais conhecidos" = .recoverable ∧
    classify_error "deadlock timeout" = .transient ∧
    classify_error "permission denied deadlock" = .recoverable := by
  refine ⟨fun m h => ?_, fun m h1 h2 => ?_, fun m h1 h2 h3 => ?_,
    fun m h1 h2 h3 => ?_, fun m => rfl, by decide, by decide, by decide,
    by decide, by decide, by decide⟩
  · simp [classify_error, h]
  · simp [classify_error, h1, h2]
  · simp [classify_error, h1, h2, h3]
  · simp [classify_error, h1, h2, h3]

/-- Witness for C2: the keyword-class implications applied at concrete
messages of each class. -/
theorem classify_error_spec_c2_witness :
    classify_error "rate limit" = .transient ∧
    classify_error "no such file" = .recoverable ∧
    classify_error "disk full" = .severe ∧
    classify_error "erro misterioso" = .recoverable :=
  ⟨classify_error_spec_c2.1 "rate limit" (by decide),
   classify_error_spec_c2.2.1 "no such file" (by decide) (by decide),
   classify_error_spec_c2.2.2.1 "disk full" (by decide) (by decide) (by decide),
   classify_error_spec_c2.2.2.2.1 "erro misterioso" (by decide) (by decide) (by decide)⟩

/-- C6 (amended): every event-log write inside
checkpoint/mark_started/mark_completed/mark_failed/mark_recovered (and the
event write piggy-backed on enqueue and claim) is logged and swallowed —
the operation returns normally; a failure of the pending-stream write
inside `enqueue` propagates to the caller; but a failure inside
`claim_next` is caught by its own try/except and surfaces as a normal
"no task" result (`None`), not as a propagated error. -/
theorem queue_failure_semantics_c6 :
    (∀ r tid e, Queue.logEvent r tid e = .ok ()) ∧
    (∀ r wid tid step data, Queue.checkpointEvent r wid tid step data = .ok ()) ∧
    (∀ r wid tid, Queue.markStarted r wid tid = .ok ()) ∧
    (∀ r wid tid res, Queue.markCompleted r wid tid res = .ok ()) ∧
    (∀ r wid tid err, Queue.markFailed r wid tid err = .ok ()) ∧
    (∀ r wid tid, Queue.markRecovered r wid tid = .ok ()) ∧
    (∀ (r : Queue.RedisConn) tid uid cap pl orq ts e,
       r.xadd Queue.PENDING_STREAM (Queue.enqueueFields tid uid cap pl orq ts) = .error e →
       Queue.enqueue r tid uid cap pl orq ts = .error e) ∧
    (∀ (r : Queue.RedisConn) tid uid cap pl orq ts mid,
       r.xadd Queue.PENDING_STREAM (Queue.enqueueFields tid uid cap pl orq ts) = .ok mid →
       Queue.enqueue r tid uid cap pl orq ts = .ok tid) ∧
    (∀ (r : Queue.RedisConn) wid e, r.xreadgroup Queue.GROUP_NAME wid = .error e →
       Queue.claimNext r wid = .ok none) := by
  refine ⟨logEvent_ok,
    fun r wid tid step data => logEvent_ok _ _ _,
    fun r wid tid => logEvent_ok _ _ _,
    fun r wid tid res => logEvent_ok _ _ _,
    fun r wid tid err => logEvent_ok _ _ _,
    fun r wid tid => logEvent_ok _ _ _,
    fun r tid uid cap pl orq ts e h => ?_,
    fun r tid uid cap pl orq ts mid h => ?_,
    fun r wid e h => ?_⟩
  · simp [Queue.enqueue, h]
  · simp [Queue.enqueue, h, logEvent_ok]
  · simp [Queue.claimNext, h]

/-- Counterexample for C6 as stated: on a connection whose reads fail,
`claim_next` does not propagate the failure — it returns a normal
"no task available" result. -/
theorem claim_next_no_propagation_c6_cex :
    Queue.failConn.xreadgroup Queue.GROUP_NAME "worker-1" = .error "connection lost" ∧
    Queue.claimNext Queue.failConn "worker-1" = .ok none :=
  ⟨rfl, rfl⟩

/-- Witness for C6 (amended) on the all-failing connection: the marker
writes succeed, enqueue propagates, claim returns `None`. -/
theorem queue_failure_semantics_c6_witness :
    Queue.markStarted Queue.failConn "w1" "t1" = .ok () ∧
    Queue.enqueue Queue.failConn "t1" "u1" "relatorio" "\x7b\x7d" "pedido" "ts" =
      .error "connection lost" ∧
    Queue.claimNext Queue.failConn "w1" = .ok none :=
  ⟨queue_failure_semantics_c6.2.2.1 Queue.failConn "w1" "t1",
   queue_failure_semantics_c6.2.2.2.2.2.2.1 Queue.failConn "t1" "u1" "relatorio"
     "\x7b\x7d" "pedido" "ts" "connection lost" rfl,
   queue_failure_semantics_c6.2.2.2.2.2.2.2.2 Queue.failConn "w1" "connection lost" rfl⟩

/-- C9: with no file changes since the last version, `checkpoint` still
creates a new empty/marker version (a commit whose tree equals the
unchanged working tree) and returns its identifier; two consecutive
checkpoints with no intervening changes return two distinct, strictly
increasing version identifiers. -/
theorem checkpoint_marker_c9 (repo : GitRepo) (m1 m2 : String) (t1 t2 : Option String)
    (h : repo.worktree = repo.headTree) :
    (repo.checkpoint m1 t1).2 = some repo.commits.length ∧
    (repo.checkpoint m1 t1).1.commits =
      repo.commits ++ [{ message := m1, tag := t1, tree := repo.worktree }] ∧
    (repo.checkpoint m1 t1).1.worktree = (repo.checkpoint m1 t1).1.headTree ∧
    (repo.checkpoint m1 t1).1.headTree = repo.headTree ∧
    ((repo.checkpoint m1 t1).1.checkpoint m2 t2).2 = some (repo.commits.length + 1) ∧
    (repo.checkpoint m1 t1).2 ≠ ((repo.checkpoint m1 t1).1.checkpoint m2 t2).2 ∧
    (∀ a b, (repo.checkpoint m1 t1).2 = some a →
       ((repo.checkpoint m1 t1).1.checkpoint m2 t2).2 = some b → a < b) := by
  refine ⟨?_, ?_, ?_, ?_, ?_, ?_, ?_⟩
  · simp [GitRepo.checkpoint]
  · simp [GitRepo.checkpoint]
  · simp [GitRepo.checkpoint, GitRepo.headTree, List.getLast?_concat]
  · simp [GitRepo.checkpoint, GitRepo.headTree, List.getLast?_concat, h]
  · simp [GitRepo.checkpoint]
  · simp [GitRepo.checkpoint]
  · intro a b ha hb
    simp [GitRepo.checkpoint] at ha hb
    omega

/-- Witness for C9: on a freshly initialised repository (clean tree), two
consecutive checkpoints return identifiers 1 then 2. -/
theorem checkpoint_marker_c9_witness :
    (gitInit.checkpoint "Análise concluída - spec gerada" none).2 = some 1 ∧
    ((gitInit.checkpoint "Análise concluída - spec gerada" none).1.checkpoint
       "Plano de execução definido" none).2 = some 2 ∧
    (gitInit.checkpoint "Análise concluída - spec gerada" none).2 ≠
      ((gitInit.checkpoint "Análise concluída - spec gerada" none).1.checkpoint
        "Plano de execução definido" none).2 :=
  ⟨(checkpoint_marker_c9 gitInit "Análise concluída - spec gerada"
      "Plano de execução definido" none none rfl).1,
   (checkpoint_marker_c9 gitInit "Análise concluída - spec gerada"
      "Plano de execução definido" none none rfl).2.2.2.2.1,
   (checkpoint_marker_c9 gitInit "Análise concluída - spec gerada"
      "Plano de execução definido" none none rfl).2.2.2.2.2.1⟩

/-- C10: `classify_error` never returns Critical, so the Critical abort
branch of `_execute_with_recovery` is unreachable: every delegate failure
with attempts remaining is followed by a retry (the loop recurses with the
next attempt number, rolling back first exactly when the error is Severe). -/
theorem classify_never_critical_c10 :
    (∀ e, classify_error e ≠ .critical) ∧
    (∀ (run : Delegate) desc maxR remaining attempt lastE (ctx : TaskContext) git e,
       run (if attempt > 1 then retryDescription desc (lastE.getD "None") else desc) =
         .error e →
       execRecoveryLoop run desc maxR (remaining + 1) attempt lastE ctx git =
         execRecoveryLoop run desc maxR remaining (attempt + 1) (some e)
           (({ ctx with
               last_error := some e
               last_severity := some (classify_error e) }).addStepResult
             { step_name := "Execução (tentativa " ++ toString attempt ++ ")",
               success := false, error := some e })
           (if classify_error e = .severe then (git.rollback 1).1 else git)) := by
  refine ⟨classify_error_ne_critical, ?_⟩
  intro run desc maxR remaining attempt lastE ctx git e h
  simp only [execRecoveryLoop, h, classify_error_ne_critical e, if_false, if_neg]

/-- Witness for C10: a first-attempt failure with an unclassified error
message retries as attempt 2 without any rollback. -/
theorem classify_never_critical_c10_witness :
    execRecoveryLoop (fun _ => Except.error "erro misterioso") "d" 3 1 1 none
        (preExecContext "t1" "u1" 0) gitInit =
      execRecoveryLoop (fun _ => Except.error "erro misterioso") "d" 3 0 2
        (some "erro misterioso")
        (({ preExecContext "t1" "u1" 0 with
            last_error := some "erro misterioso"
            last_severity := some (classify_error "erro misterioso") }).addStepResult
          { step_name := "Execução (tentativa " ++ toString 1 ++ ")",
            success := false, error := some "erro misterioso" })
        (if classify_error "erro misterioso" = .severe then (gitInit.rollback 1).1
         else gitInit) :=
  classify_never_critical_c10.2 (fun _ => Except.error "erro misterioso") "d" 3 0 1 none
    (preExecContext "t1" "u1" 0) gitInit "erro misterioso" rfl

-- more substring lemmas (containment is preserved by appending on either side)

theorem containsSub_nil_needle (h : List Char) : containsSub h [] = true := by
  cases h <;> rfl

theorem containsSub_self (n : List Char) : containsSub n n = true := by
  simpa using containsSub_here n []

theorem leadsWith_extend (n : List Char) (t : List Char) :
    ∀ h, leadsWith n h = true → leadsWith n (h ++ t) = true := by
  induction n with
  | nil => intro h _; rfl
  | cons a as ih =>
    intro h hp
    cases h with
    | nil => simp [leadsWith] at hp
    | cons b bs =>
      simp only [leadsWith, Bool.and_eq_true, beq_iff_eq] at hp
      simp only [List.cons_append, leadsWith, Bool.and_eq_true, beq_iff_eq]
      exact ⟨hp.1, ih bs hp.2⟩

theorem containsSub_extend_right (n t : List Char) :
    ∀ h, containsSub h n = true → containsSub (h ++ t) n = true := by
  intro h
  induction h with
  | nil =>
    intro hc
    simp only [containsSub, List.isEmpty_iff] at hc
    subst hc
    simpa using containsSub_nil_needle t
  | cons c rest ih =>
    intro hc
    simp only [containsSub, Bool.or_eq_true] at hc
    rcases hc with h1 | h2
    · have := leadsWith_extend n t (c :: rest) h1
      simp only [List.cons_append] at this ⊢
      simp [containsSub, this]
    · simpa using containsSub_cons_of c _ _ (ih h2)

theorem containsSub_extend_left (n : List Char) (t : List Char)
    (hc : containsSub t n = true) : ∀ h, containsSub (h ++ t) n = true := by
  intro h
  induction h with
  | nil => simpa using hc
  | cons c rest ih => exact containsSub_cons_of c _ _ ih

theorem strContains_self (s : String) : strContains s s = true :=
  containsSub_self s.data

theorem strContains_append_right (a c n : String) (h : strContains a n = true) :
    strContains (a ++ c) n = true := by
  simp only [strContains, strData_append]
  exact containsSub_extend_right n.data c.data a.data h

theorem strContains_append_left (a c n : String) (h : strContains c n = true) :
    strContains (a ++ c) n = true := by
  simp only [strContains, strData_append]
  exact containsSub_extend_left n.data c.data h a.data

-- agent loop lemmas

theorem countToolRounds_append (a b : List Loop.Msg) :
    Loop.countToolRounds (a ++ b) = Loop.countToolRounds a + Loop.countToolRounds b := by
  simp [Loop.countToolRounds, List.filter_append]

theorem isToolRoundMsg_toolResult (tc : Loop.ToolCall) (r : String) :
    Loop.isToolRoundMsg (Loop.toolResultMsg tc r) = false := rfl

theorem processToolCalls_session_count (tools : Loop.ToolRegistryM)
    (capReg : Except String Loop.CapRegM) :
    ∀ (tcs : List Loop.ToolCall) (messages session : List Loop.Msg),
      Loop.countToolRounds (Loop.processToolCalls tools capReg tcs messages session).2 =
        Loop.countToolRounds session := by
  intro tcs
  induction tcs with
  | nil => intro ms ss; rfl
  | cons tc rest ih =>
    intro ms ss
    simp only [Loop.processToolCalls]
    rw [ih]
    simp [countToolRounds_append, Loop.countToolRounds, List.filter_cons,
      isToolRoundMsg_toolResult]

theorem runLoop_always_tools (llm : Loop.LLM) (tools : Loop.ToolRegistryM)
    (capReg : Except String Loop.CapRegM) (sanity : String → String)
    (h : ∀ msgs, ∃ resp, llm msgs = Except.ok resp ∧ resp.tool_calls ≠ []) :
    ∀ (fuel : Nat) (messages session : List Loop.Msg),
      (Loop.runLoop llm tools capReg sanity fuel messages session).2 = Loop.timeoutMsg ∧
      Loop.countToolRounds (Loop.runLoop llm tools capReg sanity fuel messages session).1 =
        Loop.countToolRounds session + fuel := by
  intro fuel
  induction fuel with
  | zero =>
    intro ms ss
    refine ⟨rfl, ?_⟩
    simp [Loop.runLoop, countToolRounds_append, Loop.countToolRounds,
      List.filter_cons, Loop.isToolRoundMsg]
  | succ n ih =>
    intro ms ss
    obtain ⟨resp, hllm, hne⟩ := h ms
    have hie : resp.tool_calls.isEmpty = false := by
      cases hx : resp.tool_calls with
      | nil => exact absurd hx hne
      | cons a l => rfl
    rcases hp : Loop.processToolCalls tools capReg resp.tool_calls
        (ms ++ [Loop.assistantToolMsg resp]) (ss ++ [Loop.assistantToolMsg resp])
      with ⟨ms2, ss2⟩
    have hss2 : Loop.countToolRounds ss2 =
        Loop.countToolRounds (ss ++ [Loop.assistantToolMsg resp]) := by
      have hx := processToolCalls_session_count tools capReg resp.tool_calls
        (ms ++ [Loop.assistantToolMsg resp]) (ss ++ [Loop.assistantToolMsg resp])
      rw [hp] at hx
      exact hx
    have hcount : Loop.countToolRounds (ss ++ [Loop.assistantToolMsg resp]) =
        Loop.countToolRounds ss + 1 := by
      simp [countToolRounds_append, Loop.countToolRounds, List.filter_cons,
        Loop.isToolRoundMsg, Loop.assistantToolMsg, hie]
    simp only [Loop.runLoop, hllm, hie, Bool.false_eq_true, if_false, hp]
    refine ⟨(ih ms2 ss2).1, ?_⟩
    rw [(ih ms2 ss2).2, hss2, hcount]
    omega

/-- C5: against a backend that requests at least one tool call in every
response, `AgentLoop.run` performs exactly `max_rounds` tool rounds (the
transcript records one tool-calling assistant message per round) and then
returns the bounded "limit reached, partial results may exist" message;
the loop is a total function of its inputs (it never diverges) and this
path raises nothing — it returns the bounded message.  The default
`MAX_TOOL_ROUNDS` is 10. -/
theorem round_limit_c5 (llm : Loop.LLM) (tools : Loop.ToolRegistryM)
    (capReg : Except String Loop.CapRegM) (sanity : String → String)
    (system_prompt user_message : String) (history : List Loop.Msg) (max_rounds : Nat)
    (h : ∀ msgs, ∃ resp, llm msgs = Except.ok resp ∧ resp.tool_calls ≠ []) :
    (Loop.runModel llm tools capReg sanity system_prompt user_message history
        max_rounds).2 = Loop.timeoutMsg ∧
    Loop.countToolRounds (Loop.runModel llm tools capReg sanity system_prompt
        user_message history max_rounds).1 = max_rounds ∧
    Loop.MAX_TOOL_ROUNDS = 10 := by
  have hl := runLoop_always_tools llm tools capReg sanity h max_rounds
    ((if system_prompt ≠ "" then
        [{ role := "system", content := system_prompt : Loop.Msg }] else [])
      ++ history ++ [{ role := "user", content := user_message }])
    [{ role := "user", content := user_message }]
  simp only [Loop.runModel]
  refine ⟨hl.1, ?_, rfl⟩
  rw [hl.2]
  simp [Loop.countToolRounds, List.filter_cons, Loop.isToolRoundMsg]

/-- Witness for C5: a backend that always asks for `search_web` makes the
loop stop after exactly the requested 2 rounds with the bounded message. -/
theorem round_limit_c5_witness :
    (Loop.runModel Loop.alwaysToolLLM Loop.demoRegistry (Except.error "sem manifesto")
        id "" "pesquise vendas" [] 2).2 = Loop.timeoutMsg ∧
    Loop.countToolRounds (Loop.runModel Loop.alwaysToolLLM Loop.demoRegistry
        (Except.error "sem manifesto") id "" "pesquise vendas" [] 2).1 = 2 :=
  ⟨(round_limit_c5 Loop.alwaysToolLLM Loop.demoRegistry (Except.error "sem manifesto")
      id "" "pesquise vendas" [] 2
      (fun _ => ⟨{ content := "", tool_calls := [{ id := "call-1", name := "search_web" }] },
        rfl, by decide⟩)).1,
   (round_limit_c5 Loop.alwaysToolLLM Loop.demoRegistry (Except.error "sem manifesto")
      id "" "pesquise vendas" [] 2
      (fun _ => ⟨{ content := "", tool_calls := [{ id := "call-1", name := "search_web" }] },
        rfl, by decide⟩)).2.1⟩

/-- C8: a tool call whose name is not registered never raises: dispatch
routes it to `_handle_unknown_tool`, whose message states that the tool
does not exist and lists the valid tool names (from the capability
registry when available, else from the loop's own registry), and the loop
appends that message as the tool result and continues with the next
round. -/
theorem unknown_tool_c8 :
    (∀ (tools : Loop.ToolRegistryM) (capReg : Except String Loop.CapRegM)
       (tc : Loop.ToolCall), tools.hasTool tc.name = false →
       Loop.dispatchToolCall tools capReg tc =
         Loop.handleUnknownTool capReg tools tc.name) ∧
    (∀ (capReg : Except String Loop.CapRegM) (tools : Loop.ToolRegistryM) name,
       strContains (Loop.handleUnknownTool capReg tools name)
         (Loop.unknownToolCore name) = true) ∧
    (∀ (reg : Loop.CapRegM) (tools : Loop.ToolRegistryM) name,
       strContains (Loop.handleUnknownTool (.ok reg) tools name)
         (pyJoin ", " reg.availableToolNames) = true) ∧
    (∀ (e : String) (tools : Loop.ToolRegistryM) name,
       strContains (Loop.handleUnknownTool (.error e) tools name)
         (pyJoin ", " tools.getToolNames) = true) ∧
    (∀ (llm : Loop.LLM) (tools : Loop.ToolRegistryM) (capReg : Except String Loop.CapRegM)
       (sanity : String → String) (fuel : Nat) (messages session : List Loop.Msg)
       (resp : Loop.LLMResponse) (tc : Loop.ToolCall),
       llm messages = .ok resp → resp.tool_calls = [tc] → tools.hasTool tc.name = false →
       Loop.runLoop llm tools capReg sanity (fuel + 1) messages session =
         Loop.runLoop llm tools capReg sanity fuel
           (messages ++ [Loop.assistantToolMsg resp] ++
             [Loop.toolResultMsg tc (Loop.handleUnknownTool capReg tools tc.name)])
           (session ++ [Loop.assistantToolMsg resp] ++
             [Loop.toolResultMsg tc (Loop.handleUnknownTool capReg tools tc.name)])) := by
  refine ⟨?_, ?_, ?_, ?_, ?_⟩
  · intro tools capReg tc h
    simp [Loop.dispatchToolCall, h]
  · intro capReg tools name
    cases capReg with
    | ok reg =>
      simp only [Loop.handleUnknownTool]
      exact strContains_append_right _ _ _ (strContains_append_right _ _ _
        (strContains_append_right _ _ _ (strContains_append_right _ _ _
          (strContains_append_right _ _ _
            (strContains_append_left _ _ _ (strContains_self _))))))
    | error e =>
      simp only [Loop.handleUnknownTool]
      exact strContains_append_right _ _ _ (strContains_append_right _ _ _
        (strContains_append_right _ _ _
          (strContains_append_left _ _ _ (strContains_self _))))
  · intro reg tools name
    simp only [Loop.handleUnknownTool]
    exact strContains_append_right _ _ _
      (strContains_append_left _ _ _ (strContains_self _))
  · intro e tools name
    simp only [Loop.handleUnknownTool]
    exact strContains_append_right _ _ _
      (strContains_append_left _ _ _ (strContains_self _))
  · intro llm tools capReg sanity fuel ms ss resp tc hllm htc hun
    have hie : resp.tool_calls.isEmpty = false := by
      rw [htc]; rfl
    simp only [Loop.runLoop, hllm, hie, Bool.false_eq_true, if_false, htc,
      List.isEmpty_cons, Loop.processToolCalls, Loop.dispatchToolCall, hun,
      Bool.not_false, if_true]

/-- Witness for C8: a hallucinated `make_coffee` call against a registry
holding only `search_web` is converted into the corrective message and the
loop then finishes normally on the next round. -/
theorem unknown_tool_c8_witness :
    Loop.dispatchToolCall Loop.demoRegistry (Except.error "sem manifesto")
        { id := "call-1", name := "make_coffee" } =
      Loop.handleUnknownTool (Except.error "sem manifesto") Loop.demoRegistry
        "make_coffee" ∧
    strContains (Loop.handleUnknownTool (Except.error "sem manifesto")
        Loop.demoRegistry "make_coffee") (Loop.unknownToolCore "make_coffee") = true ∧
    strContains (Loop.handleUnknownTool (Except.error "sem manifesto")
        Loop.demoRegistry "make_coffee")
      (pyJoin ", " Loop.demoRegistry.getToolNames) = true ∧
    (Loop.runModel Loop.unknownThenFinalLLM Loop.demoRegistry
        (Except.error "sem manifesto") id "" "faça um café" [] 10).2 =
      "Não posso fazer café. Posso pesquisar na web." ∧
    (Loop.runModel Loop.unknownThenFinalLLM Loop.demoRegistry
        (Except.error "sem manifesto") id "" "faça um café" [] 10).1.any
      (fun m => m.role == "tool" &&
        strContains m.content (Loop.unknownToolCore "make_coffee")) = true :=
  ⟨unknown_tool_c8.1 Loop.demoRegistry (Except.error "sem manifesto")
      { id := "call-1", name := "make_coffee" } rfl,
   unknown_tool_c8.2.1 (Except.error "sem manifesto") Loop.demoRegistry "make_coffee",
   unknown_tool_c8.2.2.2.1 "sem manifesto" Loop.demoRegistry "make_coffee",
   by decide, by decide⟩

-- executor lemmas

theorem transition_ok_of (ctx : TaskContext) (t : TaskState)
    (h : t ∈ VALID_TRANSITIONS ctx.state) :
    ctx.transition t = .ok { ctx with state := t } := by
  simp [TaskContext.transition, h]

theorem execRecoveryLoop_state (run : Delegate) (desc : String) (maxR : Nat) :
    ∀ remaining attempt lastE (ctx : TaskContext) (git : GitRepo),
      (execRecoveryLoop run desc maxR remaining attempt lastE ctx git).1.state =
        ctx.state := by
  intro remaining
  induction remaining with
  | zero => intro attempt lastE ctx git; rfl
  | succ n ih =>
    intro attempt lastE ctx git
    simp only [execRecoveryLoop]
    cases hr : run (if attempt > 1 then retryDescription desc (lastE.getD "None") else desc) with
    | ok result => simp [TaskContext.addStepResult]
    | error e =>
      by_cases hc : classify_error e = ErrorSeverity.critical
      · simp [hc, TaskContext.addStepResult]
      · simp only [hc, if_false]
        rw [ih]
        simp [TaskContext.addStepResult]

/-- C3 (spec says Escalated; the code completes): when the delegate raises
"out of memory" (Severe) on every one of the 3 attempts, the escalation
text produced by `_execute_with_recovery` flows into output verification,
passes it, is checkpointed with the `done-<task_id>` tag, and `execute`
terminates in state Completed — not Escalated.  The returned message does
contain the progress summary and the truncated error, and contains no
stack trace, as the claim says. -/
theorem severe_exhaustion_c3 :
    (executeModel (fun r => r) (fun _ => Except.error "out of memory")
        "gerar relatório de vendas" "u1" "t1" 0).1.state = TaskState.completed ∧
    (executeModel (fun r => r) (fun _ => Except.error "out of memory")
        "gerar relatório de vendas" "u1" "t1" 0).1.state ≠ TaskState.escalated ∧
    strContains (executeModel (fun r => r) (fun _ => Except.error "out of memory")
        "gerar relatório de vendas" "u1" "t1" 0).2.2 "out of memory" = true ∧
    strContains (executeModel (fun r => r) (fun _ => Except.error "out of memory")
        "gerar relatório de vendas" "u1" "t1" 0).2.2 "✓ Análise de requisitos" = true ∧
    strContains (executeModel (fun r => r) (fun _ => Except.error "out of memory")
        "gerar relatório de vendas" "u1" "t1" 0).2.2 "✗ Execução (tentativa 3)" = true ∧
    strContains (pyLower (executeModel (fun r => r) (fun _ => Except.error "out of memory")
        "gerar relatório de vendas" "u1" "t1" 0).2.2) "traceback" = false ∧
    ((executeModel (fun r => r) (fun _ => Except.error "out of memory")
        "gerar relatório de vendas" "u1" "t1" 0).2.1.commits.filter
      (fun c => c.tag = some "done-t1")).length = 1 := by
  decide

/-- C4 (amended): on the FIRST verification failure of an execution,
`execute` rolls back one checkpoint and hands the task to
`_recover_and_replan` in state Recovering (after legal Verifying →
RollingBack → Recovering transitions); `_recover_and_replan` increments
the recovery counter and, exactly when the incremented counter exceeds
`max_recoveries`, transitions to Escalated and produces the escalation
message, otherwise re-enters planning with the original request enriched
with the failure reason.  But when the re-planned execution fails
verification a SECOND time, the executor only rolls back and walks
RollingBack → Recovering and then returns an escalation message directly
— without incrementing the counter, without transitioning to Escalated,
and without re-entering planning (last conjunct). -/
theorem verification_failure_recovery_c4 :
    (∀ (router : Router) (run : Delegate) (req uid tid : String) (chat : Int),
       (verifyOutput (execPhaseResult router run req uid tid chat).2.2).passed = false →
       executeModel router run req uid tid chat =
         (let r := recoverAndReplan router run
            { (execPhaseResult router run req uid tid chat).1 with state := .recovering }
            (((execPhaseResult router run req uid tid chat).2.1).rollback 1).1 req
            (verifyOutput (execPhaseResult router run req uid tid chat).2.2).reason
          match r.2.2 with
          | .ok text => (r.1, r.2.1, text)
          | .error e => (r.1, r.2.1, stateErrorMsg e))) ∧
    (∀ (router : Router) (run : Delegate) (ctx : TaskContext) (git : GitRepo)
       (req reason : String),
       ctx.state = .recovering → ctx.recovery_attempts + 1 > ctx.max_recoveries →
       recoverAndReplan router run ctx git req reason =
         ({ ctx with
              recovery_attempts := ctx.recovery_attempts + 1
              state := .escalated }, git,
          .ok (escalate
            { ctx with
                recovery_attempts := ctx.recovery_attempts + 1
                state := .escalated }
            ctx.last_error))) ∧
    (∀ (router : Router) (run : Delegate) (ctx : TaskContext) (git : GitRepo)
       (req reason : String),
       ctx.state = .recovering → ctx.recovery_attempts + 1 ≤ ctx.max_recoveries →
       recoverAndReplan router run ctx git req reason =
         replanFrom router run
           { ctx with
               recovery_attempts := ctx.recovery_attempts + 1
               state := .planning } git
           (enrichedRequest req reason (ctx.recovery_attempts + 1) ctx.max_recoveries)) ∧
    (∀ (req reason : String) (a m : Nat),
       strContains (enrichedRequest req reason a m) reason = true ∧
       strContains (enrichedRequest req reason a m) req = true) ∧
    (∀ (router : Router) (run : Delegate) (ctx : TaskContext) (git : GitRepo)
       (enriched : String),
       ctx.state = .planning →
       (verifyOutput (executeWithRecovery run { ctx with state := TaskState.executing }
          (router enriched)
          ((git.checkpoint ("Replano após recuperação #" ++
            toString ctx.recovery_attempts)).1)).2.2).passed = false →
       replanFrom router run ctx git enriched =
         ({ (executeWithRecovery run { ctx with state := TaskState.executing }
               (router enriched)
               ((git.checkpoint ("Replano após recuperação #" ++
                 toString ctx.recovery_attempts)).1)).1 with state := .recovering },
          (((executeWithRecovery run { ctx with state := TaskState.executing }
               (router enriched)
               ((git.checkpoint ("Replano após recuperação #" ++
                 toString ctx.recovery_attempts)).1)).2.1).rollback 1).1,
          .ok (escalate
            { (executeWithRecovery run { ctx with state := TaskState.executing }
                 (router enriched)
                 ((git.checkpoint ("Replano após recuperação #" ++
                   toString ctx.recovery_attempts)).1)).1 with state := .recovering }
            (some (verifyOutput (executeWithRecovery run
                { ctx with state := TaskState.executing } (router enriched)
                ((git.checkpoint ("Replano após recuperação #" ++
                  toString ctx.recovery_attempts)).1)).2.2).reason)))) := by
  refine ⟨?_, ?_, ?_, ?_, ?_⟩
  · intro router run req uid tid chat h
    have hst : (execPhaseResult router run req uid tid chat).1.state = .executing :=
      execRecoveryLoop_state run (router req) _ _ _ _ _ _
    have hem : executeModel router run req uid tid chat =
        executeVerifyPhase router run (execPhaseResult router run req uid tid chat).1
          (execPhaseResult router run req uid tid chat).2.1 req
          (execPhaseResult router run req uid tid chat).2.2 := rfl
    rw [hem]
    simp only [executeVerifyPhase]
    rw [transition_ok_of _ _ (by rw [hst]; decide)]
    dsimp only
    rw [h]
    simp only [Bool.false_eq_true, if_false]
    rw [transition_ok_of _ _
      ((by decide : TaskState.rollingBack ∈ VALID_TRANSITIONS TaskState.verifying))]
    dsimp only
    rw [transition_ok_of _ _
      ((by decide : TaskState.recovering ∈ VALID_TRANSITIONS TaskState.rollingBack))]
  · intro router run ctx git req reason h1 h2
    have hs : ({ ctx with recovery_attempts := ctx.recovery_attempts + 1 } :
        TaskContext).transition TaskState.escalated =
        .ok { ctx with
                recovery_attempts := ctx.recovery_attempts + 1
                state := TaskState.escalated } :=
      transition_ok_of _ _ (by dsimp only; rw [h1]; decide)
    simp only [recoverAndReplan]
    rw [if_pos h2, hs]
  · intro router run ctx git req reason h1 h2
    have hs : ({ ctx with recovery_attempts := ctx.recovery_attempts + 1 } :
        TaskContext).transition TaskState.planning =
        .ok { ctx with
                recovery_attempts := ctx.recovery_attempts + 1
                state := TaskState.planning } :=
      transition_ok_of _ _ (by dsimp only; rw [h1]; decide)
    simp only [recoverAndReplan]
    rw [if_neg (show ¬(ctx.recovery_attempts + 1 > ctx.max_recoveries) by omega), hs]
  · intro req reason a m
    constructor
    · exact strContains_append_right _ _ _ (strContains_append_right _ _ _
        (strContains_append_right _ _ _ (strContains_append_right _ _ _
        (strContains_append_right _ _ _ (strContains_append_right _ _ _
        (strContains_append_right _ _ _
          (strContains_append_left _ _ _ (strContains_self _))))))))
    · exact strContains_append_right _ _ _ (strContains_append_right _ _ _
        (strContains_append_right _ _ _ (strContains_append_right _ _ _
        (strContains_append_right _ _ _ (strContains_append_right _ _ _
        (strContains_append_right _ _ _ (strContains_append_right _ _ _
        (strContains_append_right _ _ _ (strContains_append_right _ _ _
        (strContains_append_right _ _ _ (strContains_self _)))))))))))
  · intro router run ctx git enriched h1 hv
    have hst : (executeWithRecovery run ({ ctx with state := TaskState.executing })
        (router enriched)
        ((git.checkpoint ("Replano após recuperação #" ++
          toString ctx.recovery_attempts)).1)).1.state = TaskState.executing :=
      execRecoveryLoop_state run (router enriched) _ _ _ _ _ _
    simp only [replanFrom]
    rw [transition_ok_of _ _ (by rw [h1]; decide)]
    dsimp only
    rw [transition_ok_of _ _ (by rw [hst]; decide)]
    dsimp only
    rw [hv]
    simp only [Bool.false_eq_true, if_false]
    rw [transition_ok_of _ _
      ((by decide : TaskState.rollingBack ∈ VALID_TRANSITIONS TaskState.verifying))]
    dsimp only
    rw [transition_ok_of _ _
      ((by decide : TaskState.recovering ∈ VALID_TRANSITIONS TaskState.rollingBack))]

/-- Counterexample for C4 as stated: with a delegate whose output always
fails verification ("curto", shorter than 20 characters), the SECOND
verification failure — reachable inside `_recover_and_replan` — does not
re-enter planning and does not transition to Escalated: the execution
ends in state Recovering with the recovery counter at 1 ≤ max 3, yet the
escalation message is the returned result.  So the escalation message is
not produced exactly when the counter exceeds the maximum, and planning
is not re-entered on every verification failure. -/
theorem verification_failure_recovery_c4_cex :
    (executeModel (fun r => r) (fun _ => Except.ok "curto") "req" "u1" "t1" 0).1.state =
      TaskState.recovering ∧
    (executeModel (fun r => r) (fun _ => Except.ok "curto") "req" "u1" "t1" 0).1.state ≠
      TaskState.escalated ∧
    (executeModel (fun r => r) (fun _ => Except.ok "curto")
        "req" "u1" "t1" 0).1.recovery_attempts = 1 ∧
    (executeModel (fun r => r) (fun _ => Except.ok "curto")
        "req" "u1" "t1" 0).1.max_recoveries = 3 ∧
    strContains (executeModel (fun r => r) (fun _ => Except.ok "curto")
        "req" "u1" "t1" 0).2.2 "⚠️ Preciso da sua ajuda para continuar." = true := by
  decide

/-- Witness for C4 (amended): a first result "curto" fails verification
(too short) and the executor ends the turn in state Recovering via the
recovery path; a context with 3 previous recoveries escalates (4 > 3); a
fresh one re-enters planning with the enriched request, which contains
the reason; and a second verification failure inside the re-plan leaves
the task in Recovering with a direct escalation. -/
theorem verification_failure_recovery_c4_witness :
    (executeModel (fun r => r) (fun _ => Except.ok "curto") "req" "u1" "t1" 0).1.state =
      TaskState.recovering ∧
    (recoverAndReplan (fun r => r) (fun _ => Except.ok "x")
        { task_id := "t1", user_id := "u1", state := .recovering, recovery_attempts := 3 }
        gitInit "req" "motivo").1.state = TaskState.escalated ∧
    recoverAndReplan (fun r => r) (fun _ => Except.ok "x")
        { task_id := "t1", user_id := "u1", state := .recovering, recovery_attempts := 0 }
        gitInit "req" "motivo" =
      replanFrom (fun r => r) (fun _ => Except.ok "x")
        { task_id := "t1", user_id := "u1", state := .planning, recovery_attempts := 1 }
        gitInit (enrichedRequest "req" "motivo" 1 3) ∧
    strContains (enrichedRequest "req" "motivo" 1 3) "motivo" = true ∧
    (replanFrom (fun r => r) (fun _ => Except.ok "curto")
        { task_id := "t1", user_id := "u1", state := .planning, recovery_attempts := 1 }
        gitInit "req enriquecido").1.state = TaskState.recovering := by
  refine ⟨?_, ?_, ?_, (verification_failure_recovery_c4.2.2.2.1 "req" "motivo" 1 3).1, ?_⟩
  · rw [verification_failure_recovery_c4.1 (fun r => r) (fun _ => Except.ok "curto")
      "req" "u1" "t1" 0 (by decide)]
    decide
  · rw [verification_failure_recovery_c4.2.1 (fun r => r) (fun _ => Except.ok "x")
      { task_id := "t1", user_id := "u1", state := .recovering, recovery_attempts := 3 }
      gitInit "req" "motivo" rfl (by decide)]
  · rw [verification_failure_recovery_c4.2.2.1 (fun r => r) (fun _ => Except.ok "x")
      { task_id := "t1", user_id := "u1", state := .recovering, recovery_attempts := 0 }
      gitInit "req" "motivo" rfl (by decide)]
  · rw [verification_failure_recovery_c4.2.2.2.2 (fun r => r) (fun _ => Except.ok "curto")
      { task_id := "t1", user_id := "u1", state := .planning, recovery_attempts := 1 }
      gitInit "req enriquecido" rfl (by decide)]

/-- C7: `_verify_output` passes exactly when the stripped result is
non-empty, fewer than 3 error-indicator substrings occur in the
lower-cased result, and the stripped length is at least 20; and a
first-attempt delegate success whose output passes verification drives
`execute` to final state Completed with exactly one checkpoint tagged
`done-<task_id>`, returning that output. -/
theorem verify_output_c7 :
    (∀ result, (verifyOutput result).passed = true ↔
       (pyStrip result ≠ "" ∧ errorIndicatorCount result < 3 ∧
        20 ≤ pyLen (pyStrip result))) ∧
    (∀ (router : Router) (run : Delegate) (req uid tid : String) (chat : Int)
       (out : String),
       run (router req) = .ok out → (verifyOutput out).passed = true →
       (executeModel router run req uid tid chat).1.state = TaskState.completed ∧
       (executeModel router run req uid tid chat).2.2 = out ∧
       ((executeModel router run req uid tid chat).2.1.commits.filter
          (fun c => c.tag = some ("done-" ++ tid))).length = 1) := by
  constructor
  · intro result
    simp only [verifyOutput]
    split_ifs with h1 h2 h3
    · simp [h1]
    · constructor
      · intro hf; exact absurd hf (by simp)
      · rintro ⟨-, hlt, -⟩; omega
    · constructor
      · intro hf; exact absurd hf (by simp)
      · rintro ⟨-, -, hge⟩; omega
    · simp only [true_iff]
      refine ⟨h1, by omega, by omega⟩
  · intro router run req uid tid chat out hr hv
    have hem : executeModel router run req uid tid chat =
        executeVerifyPhase router run (execPhaseResult router run req uid tid chat).1
          (execPhaseResult router run req uid tid chat).2.1 req
          (execPhaseResult router run req uid tid chat).2.2 := rfl
    have hE : execPhaseResult router run req uid tid chat =
        ((preExecContext tid uid chat).addStepResult
          { step_name := "Execução (tentativa 1)", success := true
            output := pyTake 200 out, fallback_used := none },
         (preExecGit.checkpoint "Execução bem-sucedida (tentativa 1)").1, out) := by
      have h0 : execPhaseResult router run req uid tid chat =
          execRecoveryLoop run (router req) 3 (2 + 1) 1 none
            (preExecContext tid uid chat) preExecGit := rfl
      rw [h0, execRecoveryLoop]
      rw [if_neg (show ¬(1 > 1) by omega)]
      rw [hr]
      rfl
    rw [hem, hE]
    simp only [executeVerifyPhase]
    rw [transition_ok_of _ _
      ((by decide : TaskState.verifying ∈ VALID_TRANSITIONS TaskState.executing))]
    dsimp only
    rw [hv]
    simp only [if_pos]
    rw [transition_ok_of _ _
      ((by decide : TaskState.completed ∈ VALID_TRANSITIONS TaskState.verifying))]
    dsimp only
    refine ⟨rfl, rfl, ?_⟩
    simp [GitRepo.checkpoint, preExecGit, gitInit, TaskContext.addStepResult,
      preExecContext, List.filter]

/-- Witness for C7: a first-attempt success with a long, clean output
completes the task with one `done-t1` checkpoint and returns the output. -/
theorem verify_output_c7_witness :
    (verifyOutput "relatório de vendas gerado com sucesso").passed = true ∧
    (executeModel (fun r => r) (fun _ => Except.ok "relatório de vendas gerado com sucesso")
        "gerar relatório de vendas" "u1" "t1" 0).1.state = TaskState.completed ∧
    (executeModel (fun r => r) (fun _ => Except.ok "relatório de vendas gerado com sucesso")
        "gerar relatório de vendas" "u1" "t1" 0).2.2 =
      "relatório de vendas gerado com sucesso" ∧
    ((executeModel (fun r => r) (fun _ => Except.ok "relatório de vendas gerado com sucesso")
        "gerar relatório de vendas" "u1" "t1" 0).2.1.commits.filter
      (fun c => c.tag = some ("done-" ++ "t1"))).length = 1 :=
  have h := verify_output_c7.2 (fun r => r)
    (fun _ => Except.ok "relatório de vendas gerado com sucesso")
    "gerar relatório de vendas" "u1" "t1" 0
    "relatório de vendas gerado com sucesso" rfl (by decide)
  ⟨by decide, h.1, h.2.1, h.2.2⟩
